import Mathlib

/-!
# The no-op Lightning backend (`br/pkg/lightning/backend/noop/noop.go`)

A shallow embedding of package `noop`.  Every type of the package is a Go
`struct{}`; every method has a value receiver and the package has no
package-level variable, so a method is a function of its receiver and its
arguments.  Types that the package only receives from other packages
(`context.Context`, `uuid.UUID`, `*backend.EngineConfig`, ...) are type
parameters of the methods that take them: no method inspects them.

Conventions.
* Go `error` is `Option GoError`; Go's `nil` error is `none`.
* A Go pointer argument `*T` that may be `nil` is `Option T`.
* Go `int`, `int64` and `time.Duration` are `Int`, `uint64` is `Nat`: the
  methods ignore every integer argument and return only the constant `0`.
* A Go slice is a `List`; the `nil` slice is `[]` (length `0`).
* A method whose body is `panic(msg)` yields `GoResult.panicked msg`.
-/

namespace noop

/-! ## Go values -/

/-- A non-nil Go `error` value, carrying the text of its `Error()` method. -/
structure GoError where
  Error : String
  deriving DecidableEq, Repr

/-- Go's `error` interface: `none` is the `nil` error. -/
abbrev error := Option GoError

/-- A call fails when the `error` it returns is not `nil`. -/
def error.failed (e : error) : Bool := e.isSome

/-- What a Go call does: it returns a value, or it panics with a message. -/
inductive GoResult (α : Type) where
  | returned (v : α)
  | panicked (msg : String)
  deriving DecidableEq, Repr

/-! ## The types of the package -/

/-- Go: `type noopBackend struct{}`. -/
structure noopBackend where
  deriving DecidableEq, Repr

/-- Go: `type noopRows struct{}`. -/
structure noopRows where
  deriving DecidableEq, Repr

/-- Go: `type noopEncoder struct{}`. -/
structure noopEncoder where
  deriving DecidableEq, Repr

/-- Go: `type noopRow struct{}`. -/
structure noopRow where
  deriving DecidableEq, Repr

/-- Go: `type Writer struct{}`. -/
structure Writer where
  deriving DecidableEq, Repr

/-- Go: `type trueStatus struct{}`. -/
structure trueStatus where
  deriving DecidableEq, Repr

/-! ## `noopRows` -/

/-- The row sequence a `noopRows` holds.  The struct has no field and the
package keeps no state outside its values, so the sequence has no row. -/
def noopRows.rows (_r : noopRows) : List noopRow := []

/-- Go: `func (r noopRows) SplitIntoChunks(int) []encode.Rows { return []encode.Rows{r} }`. -/
def noopRows.SplitIntoChunks (r : noopRows) (_n : Int) : List noopRows := [r]

/-- Go: `func (r noopRows) Clear() encode.Rows { return r }`. -/
def noopRows.Clear (r : noopRows) : noopRows := r

/-! ## `noopBackend` -/

/-- Go: `func (b noopBackend) Close() {}`. -/
def noopBackend.Close (_b : noopBackend) : Unit := ()

/-- Go: `func (b noopBackend) MakeEmptyRows() encode.Rows { return noopRows{} }`. -/
def noopBackend.MakeEmptyRows (_b : noopBackend) : noopRows := {}

/-- Go: `func (b noopBackend) RetryImportDelay() time.Duration { return 0 }`. -/
def noopBackend.RetryImportDelay (_b : noopBackend) : Int := 0

/-- Go: `func (b noopBackend) ShouldPostProcess() bool { return false }`. -/
def noopBackend.ShouldPostProcess (_b : noopBackend) : Bool := false

/-- Go: `NewEncoder(ctx, config) (encode.Encoder, error) { return noopEncoder{}, nil }`. -/
def noopBackend.NewEncoder {Context EncodingConfig : Type} (_b : noopBackend)
    (_ctx : Context) (_config : Option EncodingConfig) : noopEncoder × error :=
  ({}, none)

/-- Go: `OpenEngine(context.Context, *backend.EngineConfig, uuid.UUID) error { return nil }`. -/
def noopBackend.OpenEngine {Context EngineConfig UUID : Type} (_b : noopBackend)
    (_ctx : Context) (_cfg : Option EngineConfig) (_engineUUID : UUID) : error :=
  none

/-- Go: `CloseEngine(ctx, cfg, engineUUID) error { return nil }`. -/
def noopBackend.CloseEngine {Context EngineConfig UUID : Type} (_b : noopBackend)
    (_ctx : Context) (_cfg : Option EngineConfig) (_engineUUID : UUID) : error :=
  none

/-- Go: `ImportEngine(ctx, engineUUID, regionSplitSize, regionSplitKeys int64) error { return nil }`. -/
def noopBackend.ImportEngine {Context UUID : Type} (_b : noopBackend)
    (_ctx : Context) (_engineUUID : UUID) (_regionSplitSize _regionSplitKeys : Int) : error :=
  none

/-- Go: `CleanupEngine(ctx, engineUUID) error { return nil }`. -/
def noopBackend.CleanupEngine {Context UUID : Type} (_b : noopBackend)
    (_ctx : Context) (_engineUUID : UUID) : error :=
  none

/-- Go: `CheckRequirements(context.Context, *backend.CheckCtx) error { return nil }`. -/
def noopBackend.CheckRequirements {Context CheckCtx : Type} (_b : noopBackend)
    (_ctx : Context) (_check : Option CheckCtx) : error :=
  none

/-- Go: `FetchRemoteTableModels(ctx, schemaName) ([]*model.TableInfo, error) { return nil, nil }`. -/
def noopBackend.FetchRemoteTableModels {Context : Type} (TableInfo : Type) (_b : noopBackend)
    (_ctx : Context) (_schemaName : String) : List (Option TableInfo) × error :=
  ([], none)

/-- Go: `FlushEngine(ctx, engineUUID) error { return nil }`. -/
def noopBackend.FlushEngine {Context UUID : Type} (_b : noopBackend)
    (_ctx : Context) (_engineUUID : UUID) : error :=
  none

/-- Go: `FlushAllEngines(ctx) error { return nil }`. -/
def noopBackend.FlushAllEngines {Context : Type} (_b : noopBackend) (_ctx : Context) : error :=
  none

/-- Go: `EngineFileSizes() []backend.EngineFileSize { return nil }`. -/
def noopBackend.EngineFileSizes (EngineFileSize : Type) (_b : noopBackend) :
    List EngineFileSize :=
  []

/-- Go: `ResetEngine(ctx, engineUUID) error { return nil }`. -/
def noopBackend.ResetEngine {Context UUID : Type} (_b : noopBackend)
    (_ctx : Context) (_engineUUID : UUID) : error :=
  none

/-- Go: `LocalWriter(context.Context, *backend.LocalWriterConfig, uuid.UUID)
(backend.EngineWriter, error) { return Writer{}, nil }`. -/
def noopBackend.LocalWriter {Context LocalWriterConfig UUID : Type} (_b : noopBackend)
    (_ctx : Context) (_cfg : Option LocalWriterConfig) (_engineUUID : UUID) : Writer × error :=
  ({}, none)

/-- Go: `CollectLocalDuplicateRows(ctx, tbl, tableName, opts) (bool, error)
{ panic("Unsupported Operation") }`. -/
def noopBackend.CollectLocalDuplicateRows {Context Table SessionOptions : Type}
    (_b : noopBackend) (_ctx : Context) (_tbl : Table) (_tableName : String)
    (_opts : Option SessionOptions) : GoResult (Bool × error) :=
  .panicked "Unsupported Operation"

/-- Go: `CollectRemoteDuplicateRows(ctx, tbl, tableName, opts) (bool, error)
{ panic("Unsupported Operation") }`. -/
def noopBackend.CollectRemoteDuplicateRows {Context Table SessionOptions : Type}
    (_b : noopBackend) (_ctx : Context) (_tbl : Table) (_tableName : String)
    (_opts : Option SessionOptions) : GoResult (Bool × error) :=
  .panicked "Unsupported Operation"

/-- Go: `ResolveDuplicateRows(ctx, tbl, tableName, algorithm) error { return nil }`. -/
def noopBackend.ResolveDuplicateRows {Context Table DuplicateResolutionAlgorithm : Type}
    (_b : noopBackend) (_ctx : Context) (_tbl : Table) (_tableName : String)
    (_algorithm : DuplicateResolutionAlgorithm) : error :=
  none

/-- Go: `func (b noopBackend) TotalMemoryConsume() int64 { return 0 }`. -/
def noopBackend.TotalMemoryConsume (_b : noopBackend) : Int := 0

/-! ## `noopEncoder` and `noopRow` -/

/-- Go: `func (e noopEncoder) Close() {}`. -/
def noopEncoder.Close (_e : noopEncoder) : Unit := ()

/-- Go: `Encode([]types.Datum, int64, []int, int64) (encode.Row, error) { return noopRow{}, nil }`. -/
def noopEncoder.Encode {Datum : Type} (_e : noopEncoder) (_row : List Datum) (_rowID : Int)
    (_columnPermutation : List Int) (_offset : Int) : noopRow × error :=
  ({}, none)

/-- Go: `func (r noopRow) Size() uint64 { return 0 }`. -/
def noopRow.Size (_r : noopRow) : Nat := 0

/-- Go: `func (r noopRow) ClassifyAndAppend(*encode.Rows, *verification.KVChecksum,
*encode.Rows, *verification.KVChecksum) {}`.  The four arguments are pointers;
the embedding takes what they point to before the call and returns what they
point to after it.  The body is empty, so nothing is stored through them. -/
def noopRow.ClassifyAndAppend {Rows KVChecksum : Type} (_r : noopRow)
    (data : Rows) (dataChecksum : KVChecksum) (indices : Rows) (indexChecksum : KVChecksum) :
    Rows × KVChecksum × Rows × KVChecksum :=
  (data, dataChecksum, indices, indexChecksum)

/-! ## `Writer` and `trueStatus` -/

/-- Go: `func (w Writer) AppendRows(context.Context, string, []string, encode.Rows) error
{ return nil }`. -/
def Writer.AppendRows {Context Rows : Type} (_w : Writer) (_ctx : Context)
    (_tableName : String) (_columnNames : List String) (_rows : Rows) : error :=
  none

/-- Go: `func (w Writer) IsSynced() bool { return true }`. -/
def Writer.IsSynced (_w : Writer) : Bool := true

/-- Go: `func (w Writer) Close(context.Context) (backend.ChunkFlushStatus, error)
{ return trueStatus{}, nil }`. -/
def Writer.Close {Context : Type} (_w : Writer) (_ctx : Context) : trueStatus × error :=
  ({}, none)

/-- Go: `func (s trueStatus) Flushed() bool { return true }`. -/
def trueStatus.Flushed (_s : trueStatus) : Bool := true

/-! ## Sequences of calls

To speak of one call made after another, calls are values and a run threads
the backend value through them.  Every method has a value receiver: the
callee works on a copy, so the caller's backend (and the caller's `Writer`) is
after the call the value it was before it.  A panic ends the run. -/

/-- The types the package takes from the packages it imports. -/
structure Foreign where
  Context : Type
  UUID : Type
  EngineConfig : Type
  LocalWriterConfig : Type
  CheckCtx : Type
  EncodingConfig : Type
  TableInfo : Type
  EngineFileSize : Type
  Table : Type
  SessionOptions : Type
  DuplicateResolutionAlgorithm : Type
  Rows : Type

/-- A call of a method of `noopBackend`, or of a `Writer` the caller holds. -/
inductive Call (F : Foreign) where
  | Close
  | MakeEmptyRows
  | RetryImportDelay
  | ShouldPostProcess
  | NewEncoder (ctx : F.Context) (config : Option F.EncodingConfig)
  | OpenEngine (ctx : F.Context) (cfg : Option F.EngineConfig) (engineUUID : F.UUID)
  | CloseEngine (ctx : F.Context) (cfg : Option F.EngineConfig) (engineUUID : F.UUID)
  | ImportEngine (ctx : F.Context) (engineUUID : F.UUID) (regionSplitSize regionSplitKeys : Int)
  | CleanupEngine (ctx : F.Context) (engineUUID : F.UUID)
  | CheckRequirements (ctx : F.Context) (check : Option F.CheckCtx)
  | FetchRemoteTableModels (ctx : F.Context) (schemaName : String)
  | FlushEngine (ctx : F.Context) (engineUUID : F.UUID)
  | FlushAllEngines (ctx : F.Context)
  | EngineFileSizes
  | ResetEngine (ctx : F.Context) (engineUUID : F.UUID)
  | LocalWriter (ctx : F.Context) (cfg : Option F.LocalWriterConfig) (engineUUID : F.UUID)
  | CollectLocalDuplicateRows (ctx : F.Context) (tbl : F.Table) (tableName : String)
      (opts : Option F.SessionOptions)
  | CollectRemoteDuplicateRows (ctx : F.Context) (tbl : F.Table) (tableName : String)
      (opts : Option F.SessionOptions)
  | ResolveDuplicateRows (ctx : F.Context) (tbl : F.Table) (tableName : String)
      (algorithm : F.DuplicateResolutionAlgorithm)
  | TotalMemoryConsume
  | WriterAppendRows (w : Writer) (ctx : F.Context) (tableName : String)
      (columnNames : List String) (rows : F.Rows)
  | WriterIsSynced (w : Writer)
  | WriterClose (w : Writer) (ctx : F.Context)

/-- What a call gave back, by the result type of the method. -/
inductive Ret (F : Foreign) where
  | unit
  | err (e : error)
  | bool (v : Bool)
  | int64 (v : Int)
  | duration (d : Int)
  | rows (r : noopRows)
  | encoder (e : noopEncoder) (err : error)
  | models (ms : List (Option F.TableInfo)) (err : error)
  | sizes (s : List F.EngineFileSize)
  | writer (w : Writer) (err : error)
  | found (v : Bool) (err : error)
  | status (s : trueStatus) (err : error)
  | panicked (msg : String)

/-- A panic among the results. -/
def Ret.isPanic {F : Foreign} : Ret F → Bool
  | .panicked _ => true
  | _ => false

/-- The result of a method with results `(bool, error)` that may panic. -/
def Ret.ofFound {F : Foreign} : GoResult (Bool × error) → Ret F
  | .returned (v, e) => .found v e
  | .panicked msg => .panicked msg

/-- One call on backend `b`: the backend the caller holds afterwards, and the result. -/
def exec {F : Foreign} (b : noopBackend) : Call F → noopBackend × Ret F
  | .Close => (b, match b.Close with | () => .unit)
  | .MakeEmptyRows => (b, .rows b.MakeEmptyRows)
  | .RetryImportDelay => (b, .duration b.RetryImportDelay)
  | .ShouldPostProcess => (b, .bool b.ShouldPostProcess)
  | .NewEncoder ctx config => (b, .encoder (b.NewEncoder ctx config).1 (b.NewEncoder ctx config).2)
  | .OpenEngine ctx cfg id => (b, .err (b.OpenEngine ctx cfg id))
  | .CloseEngine ctx cfg id => (b, .err (b.CloseEngine ctx cfg id))
  | .ImportEngine ctx id size keys => (b, .err (b.ImportEngine ctx id size keys))
  | .CleanupEngine ctx id => (b, .err (b.CleanupEngine ctx id))
  | .CheckRequirements ctx check => (b, .err (b.CheckRequirements ctx check))
  | .FetchRemoteTableModels ctx schemaName =>
      (b, .models (b.FetchRemoteTableModels F.TableInfo ctx schemaName).1
        (b.FetchRemoteTableModels F.TableInfo ctx schemaName).2)
  | .FlushEngine ctx id => (b, .err (b.FlushEngine ctx id))
  | .FlushAllEngines ctx => (b, .err (b.FlushAllEngines ctx))
  | .EngineFileSizes => (b, .sizes (b.EngineFileSizes F.EngineFileSize))
  | .ResetEngine ctx id => (b, .err (b.ResetEngine ctx id))
  | .LocalWriter ctx cfg id => (b, .writer (b.LocalWriter ctx cfg id).1 (b.LocalWriter ctx cfg id).2)
  | .CollectLocalDuplicateRows ctx tbl tableName opts =>
      (b, .ofFound (b.CollectLocalDuplicateRows ctx tbl tableName opts))
  | .CollectRemoteDuplicateRows ctx tbl tableName opts =>
      (b, .ofFound (b.CollectRemoteDuplicateRows ctx tbl tableName opts))
  | .ResolveDuplicateRows ctx tbl tableName algorithm =>
      (b, .err (b.ResolveDuplicateRows ctx tbl tableName algorithm))
  | .TotalMemoryConsume => (b, .int64 b.TotalMemoryConsume)
  | .WriterAppendRows w ctx tableName columnNames rows =>
      (b, .err (w.AppendRows ctx tableName columnNames rows))
  | .WriterIsSynced w => (b, .bool w.IsSynced)
  | .WriterClose w ctx => (b, .status (w.Close ctx).1 (w.Close ctx).2)

/-- A sequence of calls, each on the backend the call before left; the run
ends at the first panic.  Gives the last backend and the results in order. -/
def run {F : Foreign} (b : noopBackend) : List (Call F) → noopBackend × List (Ret F)
  | [] => (b, [])
  | c :: cs =>
    if (exec b c).2.isPanic then ((exec b c).1, [(exec b c).2])
    else ((run (exec b c).1 cs).1, (exec b c).2 :: (run (exec b c).1 cs).2)

/-- The write-close-import cycle on engine `id`: `LocalWriter`, then on the
writer it returned `AppendRows` and `Close`, then `CloseEngine`,
`ImportEngine`, and the two readings `EngineFileSizes` and
`TotalMemoryConsume`.  Gives the results in order. -/
def writeCloseImport {F : Foreign} (b : noopBackend) (ctx : F.Context)
    (wcfg : Option F.LocalWriterConfig) (ecfg : Option F.EngineConfig) (id : F.UUID)
    (tableName : String) (columnNames : List String) (rows : F.Rows)
    (regionSplitSize regionSplitKeys : Int) : List (Ret F) :=
  match exec b (.LocalWriter ctx wcfg id) with
  | (b1, .writer w e) =>
      .writer w e :: (run b1 [.WriterAppendRows w ctx tableName columnNames rows,
        .WriterClose w ctx, .CloseEngine ctx ecfg id,
        .ImportEngine ctx id regionSplitSize regionSplitKeys,
        .EngineFileSizes, .TotalMemoryConsume]).2
  | (_, r) => [r]

/-- One `AppendRows` call, from the writer and the arguments it is made with. -/
def appendCall {F : Foreign} (ctx : F.Context)
    (a : Writer × String × List String × F.Rows) : Call F :=
  .WriterAppendRows a.1 ctx a.2.1 a.2.2.1 a.2.2.2

/-- Concrete foreign types for evaluating the package on explicit inputs:
identifiers and table handles are numbers, rows containers lists of numbers. -/
abbrev Foreign.sample : Foreign :=
  ⟨Unit, Nat, Unit, Unit, Unit, Unit, Unit, Nat, Nat, Unit, Nat, List Nat⟩

/-! ## Lemmas on runs -/

theorem exec_backend {F : Foreign} (b : noopBackend) (c : Call F) : (exec b c).1 = b := by
  cases c <;> rfl

theorem run_backend {F : Foreign} (b : noopBackend) (cs : List (Call F)) : (run b cs).1 = b := by
  induction cs generalizing b with
  | nil => rfl
  | cons c cs ih =>
    by_cases h : (exec b c).2.isPanic = true
    · simp [run, h, exec_backend]
    · simp [run, h, ih, exec_backend]

theorem run_cons_err {F : Foreign} (b : noopBackend) (c : Call F) (e : error)
    (cs : List (Call F)) (h : exec b c = (b, .err e)) :
    run b (c :: cs) = ((run b cs).1, .err e :: (run b cs).2) := by
  simp [run, h, Ret.isPanic]

theorem run_cons_of_not_panic {F : Foreign} (b : noopBackend) (c : Call F)
    (cs : List (Call F)) (h : (exec b c).2.isPanic = false) :
    run b (c :: cs) = ((run b cs).1, (exec b c).2 :: (run b cs).2) := by
  simp [run, h, exec_backend]

theorem run_appendCalls {F : Foreign} (b : noopBackend) (ctx : F.Context)
    (pre : List (Writer × String × List String × F.Rows)) (cs : List (Call F)) :
    run b (pre.map (appendCall ctx) ++ cs)
      = ((run b cs).1, List.replicate pre.length (.err none) ++ (run b cs).2) := by
  induction pre with
  | nil => simp
  | cons a pre ih =>
    have h : exec b (appendCall ctx a) = (b, .err none) := rfl
    simp only [List.map_cons, List.cons_append, List.length_cons, List.replicate_succ]
    rw [run_cons_err b _ none _ h, ih]

/-! ## Rows containers -/

/-- C1: for every `noopRows` container `R` and every `n ≥ 1`, `R.SplitIntoChunks n`
is the one-element list `[R]`; the in-order concatenation of the row sequences
of its chunks is the row sequence of `R` (and so is the concatenation under
any other reading `content` of a container), and the number of chunks is at
least `1` and at most `n`. -/
theorem SplitIntoChunks_concat (α : Type) (content : noopRows → List α) (R : noopRows)
    (n : Int) (h : 1 ≤ n) :
    R.SplitIntoChunks n = [R] ∧
    ((R.SplitIntoChunks n).map noopRows.rows).flatten = R.rows ∧
    ((R.SplitIntoChunks n).map content).flatten = content R ∧
    1 ≤ (R.SplitIntoChunks n).length ∧ ((R.SplitIntoChunks n).length : Int) ≤ n := by
  refine ⟨rfl, ?_, ?_, ?_, ?_⟩
  · simp [noopRows.SplitIntoChunks]
  · simp [noopRows.SplitIntoChunks]
  · simp [noopRows.SplitIntoChunks]
  · simpa [noopRows.SplitIntoChunks] using h

/-- C1 at the container `noopRows{}` and `n = 4`, with the reading that gives
every container the rows `[1, 2]`. -/
theorem SplitIntoChunks_concat_witness :
    (1 : Int) ≤ 4 ∧
    (({} : noopRows).SplitIntoChunks 4 = [{}] ∧
     ((({} : noopRows).SplitIntoChunks 4).map noopRows.rows).flatten = ({} : noopRows).rows ∧
     ((({} : noopRows).SplitIntoChunks 4).map (fun _ => [1, 2])).flatten = [1, 2] ∧
     1 ≤ (({} : noopRows).SplitIntoChunks 4).length ∧
     ((({} : noopRows).SplitIntoChunks 4).length : Int) ≤ 4) :=
  ⟨by decide, SplitIntoChunks_concat Nat (fun _ => [1, 2]) {} 4 (by decide)⟩

/-- C2: for every `noopRows` container `R`, `R.Clear()` is the empty collection
that `MakeEmptyRows()` returns, it holds zero rows, and clearing it again gives
the same container. -/
theorem Clear_empty (b : noopBackend) (R : noopRows) :
    R.Clear = b.MakeEmptyRows ∧ R.Clear.rows = [] ∧ R.Clear.rows.length = 0 ∧
    R.Clear.Clear = R.Clear :=
  ⟨rfl, rfl, rfl, rfl⟩

/-! ## Duplicate collection -/

/-- C3, as stated, fails: on the backend `noopBackend{}` with table `5`, table
name `"t"` and `nil` options, neither `CollectLocalDuplicateRows` nor
`CollectRemoteDuplicateRows` returns an error value: both panic. -/
theorem CollectDuplicateRows_no_error_value :
    (¬ ∃ (found : Bool) (e : GoError),
        noopBackend.CollectLocalDuplicateRows {} () (5 : Nat) "t" (none : Option Unit)
          = .returned (found, some e)) ∧
    (¬ ∃ (found : Bool) (e : GoError),
        noopBackend.CollectRemoteDuplicateRows {} () (5 : Nat) "t" (none : Option Unit)
          = .returned (found, some e)) ∧
    noopBackend.CollectLocalDuplicateRows {} () (5 : Nat) "t" (none : Option Unit)
      = .panicked "Unsupported Operation" := by
  refine ⟨?_, ?_, rfl⟩
  · rintro ⟨found, e, h⟩
    cases h
  · rintro ⟨found, e, h⟩
    cases h

/-- C3, amended: for every table, table name and session options,
`CollectLocalDuplicateRows` and `CollectRemoteDuplicateRows` panic with the
message "Unsupported Operation"; neither returns a value, so neither returns
`false`, and a run of calls ends at either of them. -/
theorem CollectDuplicateRows_panics {F : Foreign} (b : noopBackend) (ctx : F.Context)
    (tbl : F.Table) (tableName : String) (opts : Option F.SessionOptions)
    (later : List (Call F)) :
    b.CollectLocalDuplicateRows ctx tbl tableName opts = .panicked "Unsupported Operation" ∧
    b.CollectRemoteDuplicateRows ctx tbl tableName opts = .panicked "Unsupported Operation" ∧
    (∀ v : Bool × error, b.CollectLocalDuplicateRows ctx tbl tableName opts ≠ .returned v) ∧
    (∀ v : Bool × error, b.CollectRemoteDuplicateRows ctx tbl tableName opts ≠ .returned v) ∧
    run b (.CollectLocalDuplicateRows ctx tbl tableName opts :: later)
      = (b, [.panicked "Unsupported Operation"]) ∧
    run b (.CollectRemoteDuplicateRows ctx tbl tableName opts :: later)
      = (b, [.panicked "Unsupported Operation"]) := by
  refine ⟨rfl, rfl, ?_, ?_, rfl, rfl⟩
  · intro v h
    cases h
  · intro v h
    cases h

/-! ## Engine lifecycle -/

/-- C4, as stated, fails: on `noopBackend{}`, `OpenEngine` for engine `7` and
then at once `CleanupEngine` for engine `7` both return the `nil` error;
`CleanupEngine` returns no error value at all. -/
theorem CleanupEngine_after_OpenEngine_not_failed :
    (¬ ∃ e : GoError,
        (exec (exec {} (.OpenEngine () none 7 : Call Foreign.sample)).1
          (.CleanupEngine () 7 : Call Foreign.sample)).2 = .err (some e)) ∧
    (run {} ([.OpenEngine () none 7, .CleanupEngine () 7] : List (Call Foreign.sample))).2
      = [.err none, .err none] := by
  refine ⟨?_, rfl⟩
  rintro ⟨e, h⟩
  cases h

/-- C4, amended: for every engine identifier `id`, `OpenEngine(id)` followed at
once by `CleanupEngine(id)`, with no `CloseEngine(id)` in between, returns the
`nil` error from both calls and leaves the backend as it was. -/
theorem CleanupEngine_after_OpenEngine {F : Foreign} (b : noopBackend) (ctx : F.Context)
    (cfg : Option F.EngineConfig) (id : F.UUID) :
    run b [.OpenEngine ctx cfg id, .CleanupEngine ctx id] = (b, [.err none, .err none]) ∧
    error.failed (b.CleanupEngine ctx id) = false :=
  ⟨rfl, rfl⟩

/-- C5, as stated, fails: on `noopBackend{}`, `ImportEngine` for engine `7`
with split hints `96` and `1000`, called right after `OpenEngine` for engine
`7` and with no `CloseEngine`, returns the `nil` error: it succeeds on an
engine that is not closed. -/
theorem ImportEngine_after_OpenEngine_not_failed :
    (¬ ∃ e : GoError,
        (exec (exec {} (.OpenEngine () none 7 : Call Foreign.sample)).1
          (.ImportEngine () 7 96 1000 : Call Foreign.sample)).2 = .err (some e)) ∧
    (run {} ([.OpenEngine () none 7, .ImportEngine () 7 96 1000] : List (Call Foreign.sample))).2
      = [.err none, .err none] := by
  refine ⟨?_, rfl⟩
  rintro ⟨e, h⟩
  cases h

/-- C5, amended: for every engine identifier `id` and all split hints,
`ImportEngine` on an engine opened with `OpenEngine(id)` and never closed
returns the `nil` error; `ImportEngine` returns `nil` after every sequence of
earlier calls. -/
theorem ImportEngine_after_OpenEngine {F : Foreign} (b : noopBackend) (ctx : F.Context)
    (cfg : Option F.EngineConfig) (id : F.UUID) (regionSplitSize regionSplitKeys : Int)
    (earlier : List (Call F)) :
    run b [.OpenEngine ctx cfg id, .ImportEngine ctx id regionSplitSize regionSplitKeys]
      = (b, [.err none, .err none]) ∧
    (exec (run b earlier).1 (.ImportEngine ctx id regionSplitSize regionSplitKeys)).2
      = .err none :=
  ⟨rfl, rfl⟩

/-! ## Writers -/

/-- C6, as stated, fails: on `noopBackend{}`, the writer that `LocalWriter`
returns for engine `7` is closed with `Close`, and an `AppendRows` on it
afterwards (table `"t"`, columns `["a"]`, rows `[1, 2]`) returns the `nil`
error, not an error value. -/
theorem AppendRows_after_Close_not_failed :
    (¬ ∃ e : GoError,
        (exec (exec {} (.WriterClose (noopBackend.LocalWriter {} () (none : Option Unit) 7).1 ()
            : Call Foreign.sample)).1
          (.WriterAppendRows (noopBackend.LocalWriter {} () (none : Option Unit) 7).1 ()
            "t" ["a"] [1, 2] : Call Foreign.sample)).2 = .err (some e)) ∧
    (run {} ([.LocalWriter () none 7,
        .WriterClose (noopBackend.LocalWriter {} () (none : Option Unit) 7).1 (),
        .WriterAppendRows (noopBackend.LocalWriter {} () (none : Option Unit) 7).1 ()
          "t" ["a"] [1, 2]] : List (Call Foreign.sample))).2
      = [.writer {} none, .status {} none, .err none] := by
  refine ⟨?_, rfl⟩
  rintro ⟨e, h⟩
  cases h

/-- C6, amended: for every Writer obtained from `LocalWriter`, once `Close(ctx)`
has been called on it, every further `AppendRows` call on that Writer returns
the `nil` error, for every table name, column list and rows container. -/
theorem AppendRows_after_Close {F : Foreign} (b : noopBackend) (ctx : F.Context)
    (cfg : Option F.LocalWriterConfig) (id : F.UUID)
    (further : List (String × List String × F.Rows)) :
    run b (.LocalWriter ctx cfg id :: .WriterClose (b.LocalWriter ctx cfg id).1 ctx ::
        (further.map (fun a => ((b.LocalWriter ctx cfg id).1, a))).map (appendCall ctx))
      = (b, .writer (b.LocalWriter ctx cfg id).1 none :: .status {} none ::
          List.replicate further.length (.err none)) := by
  have h := run_appendCalls b ctx (further.map (fun a => ((b.LocalWriter ctx cfg id).1, a))) []
  rw [List.append_nil, List.length_map] at h
  rw [run_cons_of_not_panic b (.LocalWriter ctx cfg id) _ rfl,
    run_cons_of_not_panic b (.WriterClose (b.LocalWriter ctx cfg id).1 ctx) _ rfl, h]
  simp [run, exec, noopBackend.LocalWriter, Writer.Close]

/-- C9: for every Writer that `LocalWriter` returns (`LocalWriter` itself
returning no error) and after any number of `AppendRows` calls on it, each of
which returns no error, `IsSynced()` is true and `Close(ctx)` returns no error
together with a status whose `Flushed()` is true. -/
theorem Writer_synced_and_flushed {F : Foreign} (b : noopBackend) (ctx : F.Context)
    (cfg : Option F.LocalWriterConfig) (id : F.UUID)
    (appends : List (String × List String × F.Rows)) :
    (b.LocalWriter ctx cfg id).2 = none ∧
    run b ((appends.map (fun a => ((b.LocalWriter ctx cfg id).1, a))).map (appendCall ctx) ++
        [.WriterIsSynced (b.LocalWriter ctx cfg id).1,
         .WriterClose (b.LocalWriter ctx cfg id).1 ctx])
      = (b, List.replicate appends.length (.err none) ++
          [.bool true, .status ((b.LocalWriter ctx cfg id).1.Close ctx).1 none]) ∧
    (b.LocalWriter ctx cfg id).1.IsSynced = true ∧
    ((b.LocalWriter ctx cfg id).1.Close ctx).2 = none ∧
    ((b.LocalWriter ctx cfg id).1.Close ctx).1.Flushed = true := by
  refine ⟨rfl, ?_, rfl, rfl, rfl⟩
  rw [run_appendCalls]
  simp only [List.length_map]
  rfl

/-! ## Flush and reset -/

/-- C7: for every engine identifier `id`, `FlushEngine(id)` returns no error and
leaves the backend as it was, and so does `FlushAllEngines`; every sequence of
later calls then gives the results it gives without the flush. -/
theorem FlushEngine_noop {F : Foreign} (b : noopBackend) (ctx : F.Context) (id : F.UUID)
    (later : List (Call F)) :
    exec b (.FlushEngine ctx id : Call F) = (b, .err none) ∧
    exec b (.FlushAllEngines ctx : Call F) = (b, .err none) ∧
    run (exec b (.FlushEngine ctx id : Call F)).1 later = run b later ∧
    run (exec b (.FlushAllEngines ctx : Call F)).1 later = run b later ∧
    run b (.FlushEngine ctx id :: later) = ((run b later).1, .err none :: (run b later).2) ∧
    run b (.FlushAllEngines ctx :: later) = ((run b later).1, .err none :: (run b later).2) :=
  ⟨rfl, rfl, rfl, rfl, run_cons_err b _ none later rfl, run_cons_err b _ none later rfl⟩

/-- C8: for every engine identifier `id` and every sequence of pre-reset
`AppendRows` calls, the write-close-import cycle run after those writes and
`ResetEngine(id)` gives the results (return values, `EngineFileSizes`,
`TotalMemoryConsume`) of the cycle run alone; the writes and the reset all
return no error, so the cycle is reached. -/
theorem ResetEngine_discards {F : Foreign} (b : noopBackend) (ctx : F.Context)
    (wcfg : Option F.LocalWriterConfig) (ecfg : Option F.EngineConfig) (id : F.UUID)
    (pre : List (Writer × String × List String × F.Rows))
    (tableName : String) (columnNames : List String) (rows : F.Rows)
    (regionSplitSize regionSplitKeys : Int) :
    writeCloseImport (run b (pre.map (appendCall ctx) ++ [.ResetEngine ctx id])).1
        ctx wcfg ecfg id tableName columnNames rows regionSplitSize regionSplitKeys
      = writeCloseImport b ctx wcfg ecfg id tableName columnNames rows
          regionSplitSize regionSplitKeys ∧
    (run b (pre.map (appendCall ctx) ++ [.ResetEngine ctx id])).2
      = List.replicate pre.length (.err none) ++ [.err none] ∧
    writeCloseImport b ctx wcfg ecfg id tableName columnNames rows
        regionSplitSize regionSplitKeys
      = [.writer {} none, .err none, .status {} none, .err none, .err none,
         .sizes [], .int64 0] := by
  refine ⟨?_, ?_, rfl⟩
  · rw [run_backend]
  · rw [run_appendCalls]
    rfl

/-! ## Encoder -/

/-- C10: for every input (values, rowID, column permutation, offset), `Encode`
returns no error and a row whose `Size()` is `0`, and that row's
`ClassifyAndAppend` leaves both destination containers and both checksum
accumulators exactly as they were. -/
theorem Encode_row_inert {Datum Rows KVChecksum : Type} (e : noopEncoder)
    (values : List Datum) (rowID : Int) (columnPermutation : List Int) (offset : Int)
    (data : Rows) (dataChecksum : KVChecksum) (indices : Rows) (indexChecksum : KVChecksum) :
    (e.Encode values rowID columnPermutation offset).2 = none ∧
    (e.Encode values rowID columnPermutation offset).1.Size = 0 ∧
    (e.Encode values rowID columnPermutation offset).1.ClassifyAndAppend
        data dataChecksum indices indexChecksum
      = (data, dataChecksum, indices, indexChecksum) :=
  ⟨rfl, rfl, rfl⟩

end noop
